import Mathlib

/-!
# STRM Linker front end: HTTP client interceptors and navigation guard

A shallow embedding of `frontend/src/api/index.js` (the axios instance with its
request and response interceptors and the shared `loadingInstance`) and of
`frontend/src/router/index.js` (the route table and the `beforeEach` guard),
followed by the properties proved about them.

The element-plus calls `ElLoading.service`, `instance.close()` and
`ElMessage.error` are external: each call is recorded as an event in a log, and
the handle that `ElLoading.service` returns is an input of the handler that calls
it. For interleaved runs that handle is supplied by a model of `ElLoading.service`
that returns the open overlay when there is one.
-/

namespace StrmLinker

/-! ## JavaScript values -/

/-- JavaScript values that can occur in a request config, a response body or an
error message. -/
inductive JsValue where
  | undefined
  | null
  | bool (b : Bool)
  | num (q : Rat)
  | nan
  | str (s : String)
  | arr (items : List JsValue)
  | obj (fields : List (String × JsValue))

/-- JavaScript truthiness (`ToBoolean`): `undefined`, `null`, `false`, `0`, `NaN`
and the empty string are falsy, everything else is truthy. -/
def truthy : JsValue → Bool
  | .undefined => false
  | .null => false
  | .bool b => b
  | .num q => decide (q ≠ 0)
  | .nan => false
  | .str s => decide (s ≠ "")
  | .arr _ => true
  | .obj _ => true

/-- The JavaScript operator `a || b`: `a` when it is truthy, else `b`. -/
def jsOr (a b : JsValue) : JsValue :=
  if truthy a then a else b

/-- The expression `data?.detail`: `undefined` for `undefined` and `null` (optional
chaining), the own property `detail` of an object, and `undefined` for every
other value (primitives and arrays carry no such property). -/
def detailOf : JsValue → JsValue
  | .obj fields => (fields.lookup "detail").getD .undefined
  | _ => .undefined

/-! ## Requests, responses, errors -/

/-- The request config handed to the request interceptor. -/
structure Config where
  method : String
  url : String
  data : JsValue
  params : JsValue
  responseType : JsValue
  showLoading : JsValue

/-- The transport envelope of a response. -/
structure Response where
  data : JsValue
  status : Int
  statusText : String
  headers : JsValue
  config : Config

/-- The error value handed to a rejection handler: `error.message` and
`error.response` (absent when no response was received). -/
structure AxiosError where
  message : JsValue
  response : Option Response

/-- How the promise returned by a handler settles. -/
inductive Settled where
  | resolved (value : JsValue)
  | rejected (error : AxiosError)

/-! ## The shared loading handle and the observable calls -/

/-- A loading instance returned by `ElLoading.service` (an object, hence truthy). -/
abbrev Handle := Nat

/-- The calls into element-plus made by the interceptors. -/
inductive Event where
  /-- `ElLoading.service({ text: '请求中...', background: 'rgba(0, 0, 0, 0.7)' })`
  was called and returned the handle. -/
  | service (h : Handle)
  /-- `close()` was called on the handle. -/
  | close (h : Handle)
  /-- `ElMessage.error(text)` was called. -/
  | error (text : JsValue)

/-- The module state: the variable `loadingInstance` (`null` is `none`) and the
log of external calls made so far. -/
structure State where
  loadingInstance : Option Handle
  log : List Event

/-- The state after module evaluation: `let loadingInstance = null`. -/
def State.init : State :=
  { loadingInstance := none, log := [] }

/-- Request interceptor, success handler (`api/index.js` lines 16-29). The handle
`h` is what `ElLoading.service` returns if it is called. -/
def requestFulfilled (config : Config) (h : Handle) (s : State) : State × Config :=
  match config.showLoading with
  | .bool false => (s, config)
  | _ => ({ loadingInstance := some h, log := s.log ++ [Event.service h] }, config)

/-- Request interceptor, failure handler (`api/index.js` lines 30-36). -/
def requestRejected (error : AxiosError) (s : State) : State × Settled :=
  match s.loadingInstance with
  | some h => ({ loadingInstance := none, log := s.log ++ [Event.close h] }, Settled.rejected error)
  | none => (s, Settled.rejected error)

/-- Response interceptor, success handler (`api/index.js` lines 41-47). -/
def responseFulfilled (response : Response) (s : State) : State × Settled :=
  match s.loadingInstance with
  | some h =>
      ({ loadingInstance := none, log := s.log ++ [Event.close h] }, Settled.resolved response.data)
  | none => (s, Settled.resolved response.data)

/-- The expression `error.response?.data?.detail`. -/
def errorDetail (error : AxiosError) : JsValue :=
  match error.response with
  | none => .undefined
  | some r => detailOf r.data

/-- The expression `error.response?.status` (`none` is `undefined`). -/
def errorStatus (error : AxiosError) : Option Int :=
  match error.response with
  | none => none
  | some r => some r.status

/-- The text passed to `ElMessage.error` by the response failure handler
(`api/index.js` lines 55-66). -/
def errorText (error : AxiosError) : JsValue :=
  let message := jsOr (jsOr (errorDetail error) error.message) (.str "请求失败")
  match errorStatus error with
  | none => .str "网络错误，请检查连接"
  | some status =>
      if status = 404 then .str "接口不存在"
      else if status = 500 then .str "服务器内部错误"
      else if 400 ≤ status ∧ status < 500 then message
      else .str "网络错误，请检查连接"

/-- Response interceptor, failure handler (`api/index.js` lines 48-69). -/
def responseRejected (error : AxiosError) (s : State) : State × Settled :=
  let s1 : State :=
    match s.loadingInstance with
    | some h => { loadingInstance := none, log := s.log ++ [Event.close h] }
    | none => s
  ({ loadingInstance := s1.loadingInstance, log := s1.log ++ [Event.error (errorText error)] },
    Settled.rejected error)

/-- What the transport layer answers to a request. -/
inductive Transport where
  | ok (response : Response)
  | fail (error : AxiosError)

/-- One call through the axios instance: the request interceptor, the transport,
then the matching response interceptor. -/
def request (config : Config) (h : Handle) (t : Transport) (s : State) : State × Settled :=
  match t with
  | .ok response => responseFulfilled response (requestFulfilled config h s).1
  | .fail error => responseRejected error (requestFulfilled config h s).1

/-- The config built by `configApi.scan`: `api.post('/config/scan', data)`. -/
def configApi.scan (data : JsValue) : Config :=
  { method := "post", url := "/config/scan", data := data, params := .undefined,
    responseType := .undefined, showLoading := .undefined }

/-- The config built by `systemApi.getHealth`: `api.get('/health', { showLoading: false })`. -/
def systemApi.getHealth : Config :=
  { method := "get", url := "/health", data := .undefined, params := .undefined,
    responseType := .undefined, showLoading := .bool false }

/-- The object `mockExecutionResult` of `frontend/debug_scan_configs.js`. -/
def mockExecutionResult : JsValue :=
  .obj [
    ("directory", .str "/test/path"),
    ("processed", .num 5),
    ("created_links", .num 3),
    ("skipped", .num 2),
    ("errors", .arr [
      .obj [("file", .str "test1.strm"), ("error", .str "权限不足")],
      .obj [("file", .str "test2.strm"), ("error", .str "文件不存在")]]),
    ("details", .arr [
      .obj [("file", .str "movie.(mp4).strm"),
        ("result", .obj [
          ("base_name", .str "movie"),
          ("video_extension", .str "mp4"),
          ("links_created", .num 2),
          ("created_links", .arr [.str "movie.(mp4).nfo", .str "movie.(mp4).jpg"])])]]),
    ("duration", .num (3 / 2))]

/-! ## Interleaved runs of the interceptors -/

/-- One interceptor run. A request run carries the handle `ElLoading.service`
returns to it if it is called. -/
inductive Step where
  | request (config : Config) (h : Handle)
  | requestError (error : AxiosError)
  | response (response : Response)
  | responseError (error : AxiosError)

/-- The state after one interceptor run. -/
def step (st : Step) (s : State) : State :=
  match st with
  | .request config h => (requestFulfilled config h s).1
  | .requestError error => (requestRejected error s).1
  | .response response => (responseFulfilled response s).1
  | .responseError error => (responseRejected error s).1

/-- The state after a sequence of interceptor runs, in order. -/
def exec : List Step → State → State
  | [], s => s
  | st :: rest, s => exec rest (step st s)

/-- The effect of one external call on the list of overlays that are open. -/
def trackOverlay (active : List Handle) : Event → List Handle
  | .service h => if h ∈ active then active else active ++ [h]
  | .close h => active.filter (fun a => a != h)
  | .error _ => active

/-- The overlays opened and not yet closed after a log of external calls. -/
def activeOverlays (log : List Event) : List Handle :=
  log.foldl trackOverlay []

/-- The overlay calls of a log (`ElLoading.service` and `close`), notifications dropped. -/
def overlayEvents : List Event → List Event
  | [] => []
  | .error _ :: rest => overlayEvents rest
  | e :: rest => e :: overlayEvents rest

/-- The texts passed to `ElMessage.error` in a log, in order. -/
def notifications : List Event → List JsValue
  | [] => []
  | .error text :: rest => text :: notifications rest
  | _ :: rest => notifications rest

/-- Whether, along a run, every `ElLoading.service` call made while a handle is
stored returns that stored handle. -/
def returnsActive : List Step → State → Bool
  | [], _ => true
  | .request config h :: rest, s =>
      (match config.showLoading, s.loadingInstance with
        | .bool false, _ => true
        | _, none => true
        | _, some a => decide (h = a))
      && returnsActive rest (step (.request config h) s)
  | st :: rest, s => returnsActive rest (step st s)

/-! ## Router -/

/-- The static attributes of a route (`meta`). -/
structure RouteMeta where
  title : Option String
  icon : Option String

/-- A route record as seen by the guard; `meta` may be absent. -/
structure Route where
  path : String
  name : String
  meta : Option RouteMeta

/-- The route table of `router/index.js`. -/
def routes : List Route :=
  [ { path := "/", name := "Home", meta := some { title := some "首页", icon := some "House" } },
    { path := "/scan", name := "Scan",
      meta := some { title := some "扫描管理", icon := some "Search" } },
    { path := "/schedule", name := "Schedule",
      meta := some { title := some "定时任务", icon := some "Timer" } },
    { path := "/logs", name := "Logs",
      meta := some { title := some "日志查看", icon := some "Document" } },
    { path := "/settings", name := "Settings",
      meta := some { title := some "设置", icon := some "Setting" } },
    { path := "/:pathMatch(.*)*", name := "NotFound",
      meta := some { title := some "页面未找到", icon := none } } ]

/-- The expression `to.meta?.title` (`none` is `undefined`); `toRoute` is the guard's
argument `to`. -/
def metaTitle (toRoute : Route) : Option String :=
  match toRoute.meta with
  | none => none
  | some m => m.title

/-- The document title written by the `beforeEach` guard (`router/index.js`
lines 84-96); the guard then calls `next()` unconditionally. -/
def beforeEach (toRoute : Route) : String :=
  match metaTitle toRoute with
  | some title => if title ≠ "" then title ++ " - STRM Linker" else "STRM Linker - 字幕软链管理工具"
  | none => "STRM Linker - 字幕软链管理工具"

/-- Modelled from the spec: the handle returned by `ElLoading.service` of
element-plus, whose code is not among the sources. The spec defines a show while a
handle is active as a no-op returning that same handle, so no overlays stack; with
no overlay open the call opens a new one, whose handle is `fresh`. -/
def ElLoading.service (active : List Handle) (fresh : Handle) : Handle :=
  match active with
  | a :: _ => a
  | [] => fresh

/-- One interceptor run in which a request run receives the handle that
`ElLoading.service` returns for the overlays open at that moment; the handle
carried by the request step is the one a newly opened overlay would get. -/
def stepWithService (st : Step) (s : State) : State :=
  match st with
  | .request config fresh =>
      step (.request config (ElLoading.service (activeOverlays s.log) fresh)) s
  | .requestError error => step (.requestError error) s
  | .response response => step (.response response) s
  | .responseError error => step (.responseError error) s

/-- The state after a sequence of such interceptor runs, in order. -/
def execWithService : List Step → State → State
  | [], s => s
  | st :: rest, s => execWithService rest (stepWithService st s)

/-- Whether an interceptor run is one of the three handlers that close the
overlay (request failure, response success, response failure). -/
def Step.closes : Step → Bool
  | .request _ _ => false
  | _ => true

/-! ## Auxiliary lemmas -/

theorem overlayEvents_append (xs ys : List Event) :
    overlayEvents (xs ++ ys) = overlayEvents xs ++ overlayEvents ys := by
  induction xs with
  | nil => rfl
  | cons e rest ih => cases e <;> simp [overlayEvents, ih]

theorem notifications_append (xs ys : List Event) :
    notifications (xs ++ ys) = notifications xs ++ notifications ys := by
  induction xs with
  | nil => rfl
  | cons e rest ih => cases e <;> simp [notifications, ih]

theorem activeOverlays_append (log es : List Event) :
    activeOverlays (log ++ es) = es.foldl trackOverlay (activeOverlays log) := by
  simp [activeOverlays, List.foldl_append]

theorem requestFulfilled_shown (config : Config) (h : Handle) (s : State)
    (hshow : config.showLoading ≠ .bool false) :
    (requestFulfilled config h s).1
      = { loadingInstance := some h, log := s.log ++ [Event.service h] } := by
  unfold requestFulfilled
  split
  · rename_i heq
    exact absurd heq hshow
  · rfl

theorem requestFulfilled_suppressed (config : Config) (h : Handle) (s : State)
    (hoff : config.showLoading = .bool false) :
    (requestFulfilled config h s).1 = s := by
  unfold requestFulfilled
  rw [hoff]

theorem responseRejected_notifications (error : AxiosError) (s : State) :
    notifications (responseRejected error s).1.log
      = notifications s.log ++ [errorText error] := by
  unfold responseRejected
  cases hli : s.loadingInstance <;> simp [notifications_append, notifications]

theorem responseRejected_overlayEvents (error : AxiosError) (s : State) :
    overlayEvents (responseRejected error s).1.log
      = overlayEvents s.log ++ s.loadingInstance.toList.map Event.close := by
  unfold responseRejected
  cases hli : s.loadingInstance <;> simp [overlayEvents_append, overlayEvents]

theorem responseFulfilled_overlayEvents (response : Response) (s : State) :
    overlayEvents (responseFulfilled response s).1.log
      = overlayEvents s.log ++ s.loadingInstance.toList.map Event.close := by
  unfold responseFulfilled
  cases hli : s.loadingInstance <;> simp [overlayEvents_append, overlayEvents]

theorem requestRejected_overlayEvents (error : AxiosError) (s : State) :
    overlayEvents (requestRejected error s).1.log
      = overlayEvents s.log ++ s.loadingInstance.toList.map Event.close := by
  unfold requestRejected
  cases hli : s.loadingInstance <;> simp [overlayEvents_append, overlayEvents]

theorem responseRejected_loadingInstance (error : AxiosError) (s : State) :
    (responseRejected error s).1.loadingInstance = none := by
  unfold responseRejected
  cases hli : s.loadingInstance <;> simp [hli]

theorem responseFulfilled_loadingInstance (response : Response) (s : State) :
    (responseFulfilled response s).1.loadingInstance = none := by
  unfold responseFulfilled
  cases hli : s.loadingInstance <;> simp [hli]

theorem requestRejected_loadingInstance (error : AxiosError) (s : State) :
    (requestRejected error s).1.loadingInstance = none := by
  unfold requestRejected
  cases hli : s.loadingInstance <;> simp [hli]

theorem request_overlayEvents (config : Config) (h : Handle) (t : Transport) (s : State) :
    overlayEvents (request config h t s).1.log
      = overlayEvents (requestFulfilled config h s).1.log
        ++ (requestFulfilled config h s).1.loadingInstance.toList.map Event.close := by
  cases t with
  | ok response => exact responseFulfilled_overlayEvents response _
  | fail error => exact responseRejected_overlayEvents error _

theorem request_loadingInstance (config : Config) (h : Handle) (t : Transport) (s : State) :
    (request config h t s).1.loadingInstance = none := by
  cases t with
  | ok response => exact responseFulfilled_loadingInstance response _
  | fail error => exact responseRejected_loadingInstance error _

/-! ## The loading overlay -/

/-- C1: a request whose `showLoading` is unset or `true` makes one
`ElLoading.service` call in the request interceptor and one `close` call, on the
handle that call returned, in the response interceptor, on success and on failure
alike; afterwards no handle is stored. This holds from every state, in particular
from those in which no handle is stored when the request is issued. -/
theorem request_opens_and_closes_once (config : Config) (h : Handle) (t : Transport)
    (s : State)
    (hshow : config.showLoading = .undefined ∨ config.showLoading = .bool true) :
    (requestFulfilled config h s).1.log = s.log ++ [Event.service h]
    ∧ overlayEvents (request config h t s).1.log
        = overlayEvents s.log ++ [Event.service h, Event.close h]
    ∧ (request config h t s).1.loadingInstance = none := by
  have hne : config.showLoading ≠ .bool false := by
    rcases hshow with hu | ht
    · rw [hu]; intro hc; cases hc
    · rw [ht]; intro hc; cases hc
  have hreq := requestFulfilled_shown config h s hne
  refine ⟨by rw [hreq], ?_, request_loadingInstance config h t s⟩
  rw [request_overlayEvents, hreq]
  simp [overlayEvents_append, overlayEvents]

theorem request_opens_and_closes_once_witness :
    ((configApi.scan .null).showLoading = .undefined
        ∨ (configApi.scan .null).showLoading = .bool true)
    ∧ State.init.loadingInstance = none
    ∧ ((requestFulfilled (configApi.scan .null) 1 State.init).1.log
          = State.init.log ++ [Event.service 1]
        ∧ overlayEvents
            (request (configApi.scan .null) 1
              (.fail { message := .str "Network Error", response := none }) State.init).1.log
          = overlayEvents State.init.log ++ [Event.service 1, Event.close 1]
        ∧ (request (configApi.scan .null) 1
              (.fail { message := .str "Network Error", response := none })
              State.init).1.loadingInstance = none) :=
  ⟨Or.inl rfl, rfl,
    request_opens_and_closes_once (configApi.scan .null) 1
      (.fail { message := .str "Network Error", response := none }) State.init
      (Or.inl rfl)⟩

theorem step_tracks_handle (st : Step) (s : State)
    (hinv : activeOverlays s.log = s.loadingInstance.toList)
    (hret : returnsActive [st] s = true) :
    activeOverlays (step st s).log = (step st s).loadingInstance.toList := by
  cases st with
  | request config h =>
      by_cases hoff : config.showLoading = .bool false
      · simp only [step, requestFulfilled_suppressed config h s hoff]
        exact hinv
      · simp only [step, requestFulfilled_shown config h s hoff, activeOverlays_append, hinv]
        cases hli : s.loadingInstance with
        | none => simp [trackOverlay]
        | some a =>
            have hha : h = a := by
              have h2 := hret
              simp only [returnsActive, hli, Bool.and_true] at h2
              simpa using h2
            subst hha
            simp [trackOverlay]
  | requestError error =>
      simp only [step, requestRejected]
      cases hli : s.loadingInstance with
      | none => simpa [hli] using hinv
      | some a => simp [activeOverlays_append, hinv, hli, trackOverlay]
  | response response =>
      simp only [step, responseFulfilled]
      cases hli : s.loadingInstance with
      | none => simpa [hli] using hinv
      | some a => simp [activeOverlays_append, hinv, hli, trackOverlay]
  | responseError error =>
      simp only [step, responseRejected]
      cases hli : s.loadingInstance with
      | none => simpa [hli, activeOverlays_append, trackOverlay] using hinv
      | some a => simp [activeOverlays_append, hinv, hli, trackOverlay]

theorem stepWithService_tracks_handle (st : Step) (s : State)
    (hinv : activeOverlays s.log = s.loadingInstance.toList) :
    activeOverlays (stepWithService st s).log
      = (stepWithService st s).loadingInstance.toList := by
  cases st with
  | request config fresh =>
      apply step_tracks_handle _ s hinv
      by_cases hoff : config.showLoading = .bool false
      · simp [returnsActive, hoff]
      · cases hli : s.loadingInstance with
        | none => simp [returnsActive, hli]
        | some a => simp [returnsActive, hli, hinv, ElLoading.service, hoff]
  | requestError error => exact step_tracks_handle _ s hinv rfl
  | response response => exact step_tracks_handle _ s hinv rfl
  | responseError error => exact step_tracks_handle _ s hinv rfl

theorem execWithService_tracks_handle (steps : List Step) (s : State)
    (hinv : activeOverlays s.log = s.loadingInstance.toList) :
    activeOverlays (execWithService steps s).log
      = (execWithService steps s).loadingInstance.toList := by
  induction steps generalizing s with
  | nil => exact hinv
  | cons st rest ih => exact ih (stepWithService st s) (stepWithService_tracks_handle st s hinv)

theorem request_keeps_active_overlay (config : Config) (fresh : Handle) (s : State)
    (hinv : activeOverlays s.log = s.loadingInstance.toList) :
    activeOverlays s.log = []
    ∨ (activeOverlays (stepWithService (.request config fresh) s).log = activeOverlays s.log
        ∧ (stepWithService (.request config fresh) s).loadingInstance = s.loadingInstance) := by
  cases hli : s.loadingInstance with
  | none =>
      left
      rw [hinv, hli]
      rfl
  | some a =>
      right
      have hactive : activeOverlays s.log = [a] := by rw [hinv, hli]; rfl
      by_cases hoff : config.showLoading = .bool false
      · simp only [stepWithService, step, requestFulfilled_suppressed config _ s hoff, hli]
        exact ⟨trivial, trivial⟩
      · simp only [stepWithService, step, requestFulfilled_shown config _ s hoff,
          activeOverlays_append, hactive, ElLoading.service]
        simp [trackOverlay]

/-- C2: with `ElLoading.service` returning the open overlay when there is one, in
every state reached from the initial state by any interleaving of request and
response interceptor runs the overlays opened and not yet closed are exactly the
stored handle, so there are zero or one of them; and a request interceptor run
that finds an overlay open leaves the open overlays and the stored handle as they
were, opening no second overlay. -/
theorem at_most_one_active_overlay (steps : List Step) (config : Config) (fresh : Handle) :
    (activeOverlays (execWithService steps State.init).log).length ≤ 1
    ∧ activeOverlays (execWithService steps State.init).log
        = (execWithService steps State.init).loadingInstance.toList
    ∧ (activeOverlays (execWithService steps State.init).log = []
      ∨ (activeOverlays
            (stepWithService (.request config fresh) (execWithService steps State.init)).log
          = activeOverlays (execWithService steps State.init).log
        ∧ (stepWithService (.request config fresh)
            (execWithService steps State.init)).loadingInstance
          = (execWithService steps State.init).loadingInstance)) := by
  have hinv := execWithService_tracks_handle steps State.init rfl
  refine ⟨?_, hinv, request_keeps_active_overlay config fresh _ hinv⟩
  rw [hinv]
  cases (execWithService steps State.init).loadingInstance <;> simp

/-- Two scan requests issued before either settles, then both settling: the second
`ElLoading.service` call returns the overlay of the first, one overlay is open
while the requests are in flight, and none is open after the first has settled. -/
theorem overlapping_requests_share_overlay :
    (execWithService
        [Step.request (configApi.scan .null) 1, Step.request (configApi.scan .null) 2]
        State.init).log = [Event.service 1, Event.service 1]
    ∧ activeOverlays
        (execWithService
          [Step.request (configApi.scan .null) 1, Step.request (configApi.scan .null) 2]
          State.init).log = [1]
    ∧ activeOverlays
        (execWithService
          [Step.request (configApi.scan .null) 1, Step.request (configApi.scan .null) 2,
            Step.responseError { message := .str "Network Error", response := none },
            Step.responseError { message := .str "Network Error", response := none }]
          State.init).log = [] := by
  refine ⟨rfl, by decide, by decide⟩

/-- C3, counterexample: a health check (`showLoading: false`) that settles while
the overlay of an earlier scan request is open calls `close` on that overlay. -/
theorem suppressed_request_closes_other_overlay :
    systemApi.getHealth.showLoading = .bool false
    ∧ (exec [Step.request (configApi.scan .null) 7] State.init).loadingInstance = some 7
    ∧ (request systemApi.getHealth 9
          (.ok { data := .obj [("status", .str "ok")], status := 200, statusText := "OK",
                 headers := .null, config := systemApi.getHealth })
          (exec [Step.request (configApi.scan .null) 7] State.init)).1.log
        = (exec [Step.request (configApi.scan .null) 7] State.init).log ++ [Event.close 7]
    ∧ (request systemApi.getHealth 9
          (.fail { message := .str "Network Error", response := none })
          (exec [Step.request (configApi.scan .null) 7] State.init)).1.log
        = (exec [Step.request (configApi.scan .null) 7] State.init).log
            ++ [Event.close 7, Event.error (.str "网络错误，请检查连接")] :=
  ⟨rfl, rfl, rfl, rfl⟩

/-- C3, amended: a request whose `showLoading` is `false` makes no
`ElLoading.service` call in any state; its response handler, on success and on
failure alike, calls `close` on the stored handle when there is one and on nothing
when none is stored, and leaves no handle stored. -/
theorem suppressed_request_overlay_calls (config : Config) (h : Handle) (t : Transport)
    (s : State) (hoff : config.showLoading = .bool false) :
    (requestFulfilled config h s).1 = s
    ∧ overlayEvents (request config h t s).1.log
        = overlayEvents s.log ++ s.loadingInstance.toList.map Event.close
    ∧ (request config h t s).1.loadingInstance = none := by
  have hreq := requestFulfilled_suppressed config h s hoff
  refine ⟨hreq, ?_, request_loadingInstance config h t s⟩
  rw [request_overlayEvents, hreq]

theorem suppressed_request_overlay_calls_witness :
    systemApi.getHealth.showLoading = .bool false
    ∧ ((requestFulfilled systemApi.getHealth 9 State.init).1 = State.init
      ∧ overlayEvents
          (request systemApi.getHealth 9
            (.fail { message := .str "Network Error", response := none }) State.init).1.log
          = overlayEvents State.init.log ++ State.init.loadingInstance.toList.map Event.close
      ∧ (request systemApi.getHealth 9
            (.fail { message := .str "Network Error", response := none })
            State.init).1.loadingInstance = none) :=
  ⟨rfl,
    suppressed_request_overlay_calls systemApi.getHealth 9
      (.fail { message := .str "Network Error", response := none }) State.init rfl⟩

/-- C10: each of the three closing handlers (request failure, response success,
response failure) leaves no handle stored; run when no handle is stored, in
particular again after a closing handler, it calls `close` on nothing, keeps the
stored handle `null`, and changes the state not at all (request failure, response
success) or only by the notification it appends (response failure). -/
theorem close_is_idempotent (st st2 : Step) (s : State)
    (hst : st.closes = true) (hst2 : st2.closes = true) :
    (step st s).loadingInstance = none
    ∧ overlayEvents (step st2 (step st s)).log = overlayEvents (step st s).log
    ∧ (step st2 (step st s)).loadingInstance = none
    ∧ (s.loadingInstance = none →
        overlayEvents (step st s).log = overlayEvents s.log
        ∧ (step st s).loadingInstance = none
        ∧ (∀ error, st = .requestError error → step st s = s)
        ∧ (∀ response, st = .response response → step st s = s)
        ∧ (∀ error, st = .responseError error →
            step st s = { loadingInstance := none,
                          log := s.log ++ [Event.error (errorText error)] })) := by
  have hnone : ∀ (x : Step) (u : State), x.closes = true → (step x u).loadingInstance = none := by
    intro x u hx
    cases x with
    | request config h => cases hx
    | requestError error => exact requestRejected_loadingInstance error u
    | response response => exact responseFulfilled_loadingInstance response u
    | responseError error => exact responseRejected_loadingInstance error u
  have hlog : ∀ (x : Step) (u : State), x.closes = true → u.loadingInstance = none →
      overlayEvents (step x u).log = overlayEvents u.log := by
    intro x u hx hu
    cases x with
    | request config h => cases hx
    | requestError error => simp [step, requestRejected_overlayEvents, hu]
    | response response => simp [step, responseFulfilled_overlayEvents, hu]
    | responseError error => simp [step, responseRejected_overlayEvents, hu]
  refine ⟨hnone st s hst, hlog st2 _ hst2 (hnone st s hst), hnone st2 _ hst2, ?_⟩
  intro hs
  refine ⟨hlog st s hst hs, hnone st s hst, ?_, ?_, ?_⟩
  · intro error he
    subst he
    simp [step, requestRejected, hs]
  · intro response he
    subst he
    simp [step, responseFulfilled, hs]
  · intro error he
    subst he
    simp [step, responseRejected, hs]

theorem close_is_idempotent_witness :
    (Step.responseError { message := .str "Network Error", response := none }).closes = true
    ∧ (Step.requestError { message := .str "Network Error", response := none }).closes = true
    ∧ State.init.loadingInstance = none
    ∧ (step (.responseError { message := .str "Network Error", response := none })
        State.init).loadingInstance = none
    ∧ overlayEvents
        (step (.requestError { message := .str "Network Error", response := none })
          (step (.responseError { message := .str "Network Error", response := none })
            State.init)).log
      = overlayEvents
        (step (.responseError { message := .str "Network Error", response := none })
          State.init).log
    ∧ overlayEvents
        (step (.responseError { message := .str "Network Error", response := none })
          State.init).log = overlayEvents State.init.log :=
  have key := close_is_idempotent
    (.responseError { message := .str "Network Error", response := none })
    (.requestError { message := .str "Network Error", response := none })
    State.init rfl rfl
  ⟨rfl, rfl, rfl, key.1, key.2.1, (key.2.2.2 rfl).1⟩

/-! ## Error classification and notification -/

/-- C4, counterexample: status 422 with body `{detail: ""}`. The body has a
detail field (the empty string), yet the handler notifies the transport message,
because `||` skips every falsy operand. -/
theorem empty_detail_falls_through :
    errorStatus
        { message := .str "Request failed with status code 422",
          response := some { data := .obj [("detail", .str "")], status := 422,
                             statusText := "Unprocessable Entity", headers := .null,
                             config := configApi.scan .null } } = some 422
    ∧ List.lookup "detail" [("detail", JsValue.str "")] = some (JsValue.str "")
    ∧ errorDetail
        { message := .str "Request failed with status code 422",
          response := some { data := .obj [("detail", .str "")], status := 422,
                             statusText := "Unprocessable Entity", headers := .null,
                             config := configApi.scan .null } } = .str ""
    ∧ notifications
        (responseRejected
          { message := .str "Request failed with status code 422",
            response := some { data := .obj [("detail", .str "")], status := 422,
                               statusText := "Unprocessable Entity", headers := .null,
                               config := configApi.scan .null } }
          State.init).1.log = [.str "Request failed with status code 422"]
    ∧ JsValue.str "Request failed with status code 422" ≠ JsValue.str "" := by
  refine ⟨rfl, rfl, rfl, ?_, ?_⟩
  · rw [responseRejected_notifications]
    simp [errorText, errorStatus, errorDetail, detailOf, jsOr, truthy, notifications,
      State.init, List.lookup]
  · intro hc
    injection hc with hc
    exact absurd hc (by decide)

/-- C4, amended: for a failure whose status is in [400,500) and is not 404 the
handler issues exactly one notification: the body's detail field when that is
truthy (present and not `""`, `null`, `false`, `0` or `NaN`), otherwise the
error's message when that is truthy, otherwise `'请求失败'`. -/
theorem client_error_notification (error : AxiosError) (s : State) (status : Int)
    (hstatus : errorStatus error = some status)
    (hrange : 400 ≤ status ∧ status < 500) (hne : status ≠ 404) :
    notifications (responseRejected error s).1.log
      = notifications s.log
        ++ [if truthy (errorDetail error) then errorDetail error
            else if truthy error.message then error.message
            else .str "请求失败"] := by
  rw [responseRejected_notifications]
  have h500 : status ≠ 500 := by omega
  simp only [errorText, hstatus, if_neg hne, if_neg h500, if_pos hrange, jsOr]
  by_cases hd : truthy (errorDetail error) = true
  · simp [hd]
  · simp [hd]

theorem client_error_notification_witness :
    errorStatus
        { message := .str "Request failed with status code 422",
          response := some { data := .obj [("detail", .str "bad field")], status := 422,
                             statusText := "Unprocessable Entity", headers := .null,
                             config := configApi.scan .null } } = some 422
    ∧ ((400 : Int) ≤ 422 ∧ (422 : Int) < 500) ∧ (422 : Int) ≠ 404
    ∧ notifications
        (responseRejected
          { message := .str "Request failed with status code 422",
            response := some { data := .obj [("detail", .str "bad field")], status := 422,
                               statusText := "Unprocessable Entity", headers := .null,
                               config := configApi.scan .null } }
          State.init).1.log = [.str "bad field"] :=
  ⟨rfl, by decide, by decide,
    (client_error_notification
      { message := .str "Request failed with status code 422",
        response := some { data := .obj [("detail", .str "bad field")], status := 422,
                           statusText := "Unprocessable Entity", headers := .null,
                           config := configApi.scan .null } }
      State.init 422 rfl (by decide) (by decide)).trans
      (by simp [errorDetail, detailOf, truthy, notifications, State.init, List.lookup])⟩

/-- C5: for a failure with status 404 the handler issues exactly one notification,
`'接口不存在'`, and for status 500 exactly one, `'服务器内部错误'`, whatever the
response body and the error message are. -/
theorem fixed_text_for_404_and_500 (error : AxiosError) (s : State) :
    (errorStatus error = some 404 →
      notifications (responseRejected error s).1.log
        = notifications s.log ++ [.str "接口不存在"])
    ∧ (errorStatus error = some 500 →
      notifications (responseRejected error s).1.log
        = notifications s.log ++ [.str "服务器内部错误"]) := by
  constructor
  · intro h404
    rw [responseRejected_notifications]
    simp [errorText, h404]
  · intro h500
    rw [responseRejected_notifications]
    simp [errorText, h500]

theorem fixed_text_for_404_and_500_witness :
    (errorStatus
        { message := .str "Request failed with status code 404",
          response := some { data := .obj [("detail", .str "Not Found")], status := 404,
                             statusText := "Not Found", headers := .null,
                             config := configApi.scan .null } } = some 404
      ∧ notifications
          (responseRejected
            { message := .str "Request failed with status code 404",
              response := some { data := .obj [("detail", .str "Not Found")], status := 404,
                                 statusText := "Not Found", headers := .null,
                                 config := configApi.scan .null } }
            State.init).1.log = notifications State.init.log ++ [.str "接口不存在"])
    ∧ (errorStatus
        { message := .str "Request failed with status code 500",
          response := some { data := .obj [("detail", .str "boom")], status := 500,
                             statusText := "Internal Server Error", headers := .null,
                             config := configApi.scan .null } } = some 500
      ∧ notifications
          (responseRejected
            { message := .str "Request failed with status code 500",
              response := some { data := .obj [("detail", .str "boom")], status := 500,
                                 statusText := "Internal Server Error", headers := .null,
                                 config := configApi.scan .null } }
            State.init).1.log = notifications State.init.log ++ [.str "服务器内部错误"]) :=
  ⟨⟨rfl,
      (fixed_text_for_404_and_500
        { message := .str "Request failed with status code 404",
          response := some { data := .obj [("detail", .str "Not Found")], status := 404,
                             statusText := "Not Found", headers := .null,
                             config := configApi.scan .null } }
        State.init).1 rfl⟩,
    ⟨rfl,
      (fixed_text_for_404_and_500
        { message := .str "Request failed with status code 500",
          response := some { data := .obj [("detail", .str "boom")], status := 500,
                             statusText := "Internal Server Error", headers := .null,
                             config := configApi.scan .null } }
        State.init).2 rfl⟩⟩

/-- C6: for a failure without a status, and for one whose status is neither 500
nor in [400,500), the handler issues exactly one notification,
`'网络错误，请检查连接'`, whatever the response body and the error message are. -/
theorem network_error_notification (error : AxiosError) (s : State)
    (hstatus : errorStatus error = none
      ∨ ∃ status, errorStatus error = some status ∧ status ≠ 500
          ∧ ¬ (400 ≤ status ∧ status < 500)) :
    notifications (responseRejected error s).1.log
      = notifications s.log ++ [.str "网络错误，请检查连接"] := by
  rw [responseRejected_notifications]
  rcases hstatus with hnone | ⟨status, hsome, h500, hrange⟩
  · simp [errorText, hnone]
  · have h404 : status ≠ 404 := by omega
    simp [errorText, hsome, h500, h404, hrange]

theorem network_error_notification_witness :
    (errorStatus
        { message := .str "Request failed with status code 502",
          response := some { data := .obj [("detail", .str "upstream down")], status := 502,
                             statusText := "Bad Gateway", headers := .null,
                             config := configApi.scan .null } } = none
      ∨ ∃ status,
          errorStatus
            { message := .str "Request failed with status code 502",
              response := some { data := .obj [("detail", .str "upstream down")],
                                 status := 502, statusText := "Bad Gateway",
                                 headers := .null, config := configApi.scan .null } }
            = some status
          ∧ status ≠ 500 ∧ ¬ (400 ≤ status ∧ status < 500))
    ∧ notifications
        (responseRejected
          { message := .str "Request failed with status code 502",
            response := some { data := .obj [("detail", .str "upstream down")], status := 502,
                               statusText := "Bad Gateway", headers := .null,
                               config := configApi.scan .null } }
          State.init).1.log = notifications State.init.log ++ [.str "网络错误，请检查连接"] :=
  ⟨Or.inr ⟨502, rfl, by decide, by decide⟩,
    network_error_notification
      { message := .str "Request failed with status code 502",
        response := some { data := .obj [("detail", .str "upstream down")], status := 502,
                           statusText := "Bad Gateway", headers := .null,
                           config := configApi.scan .null } }
      State.init (Or.inr ⟨502, rfl, by decide, by decide⟩)⟩

/-- C7: for every failure, in every state and hence in each classification branch,
the response failure handler returns a rejection carrying the very error it
received, and so does a call through the axios instance whose transport fails. -/
theorem failure_handler_rejects_with_same_error (error : AxiosError) (s : State)
    (config : Config) (h : Handle) :
    (responseRejected error s).2 = Settled.rejected error
    ∧ (request config h (.fail error) s).2 = Settled.rejected error :=
  ⟨rfl, rfl⟩

/-- C8: the response success handler resolves with the `data` field of the
response, whatever its status, status text, headers and config are; so a
`configApi.scan` call answered with `mockExecutionResult` resolves with that
object, after one `ElLoading.service` call and one `close` call on its handle. -/
theorem success_handler_returns_data (data : JsValue) (status : Int) (statusText : String)
    (headers : JsValue) (config : Config) (s : State) (payload : JsValue) (h : Handle) :
    (responseFulfilled { data := data, status := status, statusText := statusText,
                         headers := headers, config := config } s).2 = Settled.resolved data
    ∧ (request (configApi.scan payload) h
        (.ok { data := mockExecutionResult, status := status, statusText := statusText,
               headers := headers, config := configApi.scan payload }) s).2
        = Settled.resolved mockExecutionResult
    ∧ (request (configApi.scan payload) h
        (.ok { data := mockExecutionResult, status := status, statusText := statusText,
               headers := headers, config := configApi.scan payload }) State.init).1.log
        = [Event.service h, Event.close h] := by
  refine ⟨?_, ?_, rfl⟩
  · unfold responseFulfilled
    cases s.loadingInstance <;> rfl
  · rfl

/-! ## Navigation guard -/

theorem suffixed_title_ne_default (title : String) :
    title ++ " - STRM Linker" ≠ "STRM Linker - 字幕软链管理工具" := by
  intro hc
  have h2 : (title ++ " - STRM Linker").data.reverse.head?
      = ("STRM Linker - 字幕软链管理工具").data.reverse.head? := by rw [hc]
  rw [String.data_append, List.reverse_append] at h2
  have h3 : (" - STRM Linker".data.reverse ++ title.data.reverse).head?
      = some (Char.ofNat 114) := rfl
  rw [h3] at h2
  revert h2
  decide

/-- For every route of the route table the guard writes the route title followed by
the application suffix. -/
theorem beforeEach_on_routes :
    routes.map beforeEach
      = ["首页 - STRM Linker", "扫描管理 - STRM Linker", "定时任务 - STRM Linker",
          "日志查看 - STRM Linker", "设置 - STRM Linker", "页面未找到 - STRM Linker"] := by
  decide

/-- C9, counterexample: a route whose metadata carries the empty string as title.
The title is present, yet the guard writes the default title and not the title
followed by the suffix. -/
theorem empty_title_gets_default :
    metaTitle { path := "/blank", name := "Blank",
                meta := some { title := some "", icon := none } } = some ""
    ∧ beforeEach { path := "/blank", name := "Blank",
                   meta := some { title := some "", icon := none } }
        = "STRM Linker - 字幕软链管理工具"
    ∧ beforeEach { path := "/blank", name := "Blank",
                   meta := some { title := some "", icon := none } }
        ≠ "" ++ " - STRM Linker" := by
  refine ⟨rfl, by decide, by decide⟩

/-- C9, amended: the guard sets the document title to `meta.title` followed by
`" - STRM Linker"` whenever the metadata carries a non-empty title, and to the
default `"STRM Linker - 字幕软链管理工具"` exactly when the metadata is absent, its
title is absent, or its title is the empty string. -/
theorem beforeEach_sets_title (toRoute : Route) :
    (∀ title, metaTitle toRoute = some title → title ≠ "" →
      beforeEach toRoute = title ++ " - STRM Linker")
    ∧ (beforeEach toRoute = "STRM Linker - 字幕软链管理工具"
        ↔ (metaTitle toRoute = none ∨ metaTitle toRoute = some ""))
    ∧ (metaTitle toRoute = none
        ↔ (toRoute.meta = none ∨ ∃ m, toRoute.meta = some m ∧ m.title = none)) := by
  refine ⟨?_, ?_, ?_⟩
  · intro title ht hne
    simp [beforeEach, ht, hne]
  · constructor
    · intro hdef
      cases ht : metaTitle toRoute with
      | none => exact Or.inl rfl
      | some title =>
          by_cases hne : title = ""
          · subst hne
            exact Or.inr rfl
          · have hset : beforeEach toRoute = title ++ " - STRM Linker" := by
              simp [beforeEach, ht, hne]
            rw [hset] at hdef
            exact absurd hdef (suffixed_title_ne_default title)
    · intro hcase
      rcases hcase with hnone | hempty
      · simp [beforeEach, hnone]
      · simp [beforeEach, hempty]
  · unfold metaTitle
    cases hm : toRoute.meta with
    | none => simp
    | some m => simp

theorem beforeEach_sets_title_witness :
    metaTitle { path := "/scan", name := "Scan",
                meta := some { title := some "Scan", icon := some "Search" } } = some "Scan"
    ∧ "Scan" ≠ ""
    ∧ beforeEach { path := "/scan", name := "Scan",
                   meta := some { title := some "Scan", icon := some "Search" } }
        = "Scan - STRM Linker" :=
  ⟨rfl, by decide,
    ((beforeEach_sets_title
      { path := "/scan", name := "Scan",
        meta := some { title := some "Scan", icon := some "Search" } }).1
      "Scan" rfl (by decide)).trans (by decide)⟩

end StrmLinker
